import Mathlib

/-!
Shallow embedding of the `audio_recognizer` Home Assistant custom integration
(source files `__init__.py`, `helpers.py`, `telegram.py`, `const.py`,
`exceptions.py`, `config_flow.py`).

External effects (the ffmpeg subprocess, the STT backend, the Telegram bot
session) are modelled as explicit parameters carrying their observable
behaviour; every function of the repository that a claim touches is
translated into a pure Lean definition over those parameters.  Byte buffers
are `List Nat`; Python exceptions become an explicit error type; the
`try/except` blocks of the source are modelled by explicit wrapping of the
`Except` value produced by the protected region.
-/

/-- An exception as raised by the integration.  `serviceValidation` embeds
`homeassistant.exceptions.ServiceValidationError` with its message,
`noAudioStream` embeds the integration's own `NoAudioStreamError`
(`exceptions.py`), and `otherExc` stands for any other Python exception
(e.g. one raised inside the STT backend), carrying its string rendering. -/
inductive PyError where
  | serviceValidation (msg : String)
  | noAudioStream (msg : String)
  | otherExc (msg : String)
deriving DecidableEq, Repr

/-- The string rendering of an exception (Python `str(e)`): the carried
message. -/
def PyError.msg : PyError → String
  | .serviceValidation m => m
  | .noAudioStream m => m
  | .otherExc m => m

/-- The observable behaviour of one ffmpeg subprocess invocation:
its exit code and the captured stdout (raw bytes) and stderr (decoded text),
as consumed by `process.communicate()` in the source. -/
structure FfmpegRun where
  returncode : Int
  stdout : List Nat
  stderr : String
deriving DecidableEq, Repr

namespace Helpers

/-- The argument list built by `helpers.async_transcode_from_bytes`
(`helpers.py` line 20). -/
def bytes_command : List String :=
  ["ffmpeg", "-i", "-", "-vn", "-f", "wav", "-acodec", "pcm_s16le",
   "-ar", "16000", "-ac", "1", "-"]

/-- The argument list built by `helpers.async_transcode_from_path`
(`helpers.py` line 47), as a function of the source path. -/
def path_command (source_path : String) : List String :=
  ["ffmpeg", "-i", source_path, "-vn", "-f", "wav", "-acodec", "pcm_s16le",
   "-ar", "16000", "-ac", "1", "-"]

/-- `helpers.async_transcode_from_bytes` (`helpers.py` lines 18-35), as a
function of the ffmpeg invocation's observable behaviour: non-zero exit
raises `ServiceValidationError` with the stderr text; otherwise the fixed
44-byte WAV header is stripped from stdout, and a result not exceeding the
header size raises `NoAudioStreamError`. -/
def async_transcode_from_bytes (run : FfmpegRun) : Except PyError (List Nat) :=
  if run.returncode ≠ 0 then
    let error_msg := run.stderr
    .error (.serviceValidation
      s!"Failed to transcode in-memory audio. Error: {error_msg}")
  else
    let wav_header_size := 44
    if run.stdout.length > wav_header_size then
      .ok (run.stdout.drop wav_header_size)
    else
      .error (.noAudioStream "The source media does not contain an audio stream.")

/-- `helpers.async_transcode_from_path` (`helpers.py` lines 45-63):
same structure as the from-bytes variant, with the path interpolated into
the failure message and a slightly different `NoAudioStreamError` text. -/
def async_transcode_from_path (source_path : String) (run : FfmpegRun) :
    Except PyError (List Nat) :=
  if run.returncode ≠ 0 then
    let error_msg := run.stderr
    .error (.serviceValidation
      s!"Failed to transcode audio file: {source_path}. Error: {error_msg}")
  else
    let wav_header_size := 44
    if run.stdout.length > wav_header_size then
      .ok (run.stdout.drop wav_header_size)
    else
      .error (.noAudioStream "The source file does not contain an audio stream.")

end Helpers

namespace Init

/-- The argument list built by `async_transcode_from_bytes` of `__init__.py`
(line 59); unlike the `helpers.py` copy it has no `-vn` flag. -/
def bytes_command : List String :=
  ["ffmpeg", "-i", "-", "-f", "wav", "-acodec", "pcm_s16le",
   "-ar", "16000", "-ac", "1", "-"]

/-- The argument list built by `async_transcode_from_path` of `__init__.py`
(line 42); no `-vn` flag either. -/
def path_command (source_path : String) : List String :=
  ["ffmpeg", "-i", source_path, "-f", "wav", "-acodec", "pcm_s16le",
   "-ar", "16000", "-ac", "1", "-"]

/-- `async_transcode_from_bytes` of `__init__.py` (lines 56-71): identical
header stripping, but the empty-output case raises a plain
`ServiceValidationError`, not `NoAudioStreamError`. -/
def async_transcode_from_bytes (run : FfmpegRun) : Except PyError (List Nat) :=
  if run.returncode ≠ 0 then
    let error_msg := run.stderr
    .error (.serviceValidation
      s!"Failed to transcode in-memory audio. Error: {error_msg}")
  else
    let wav_header_size := 44
    if run.stdout.length > wav_header_size then
      .ok (run.stdout.drop wav_header_size)
    else
      .error (.serviceValidation "Transcoding resulted in empty audio data.")

/-- `async_transcode_from_path` of `__init__.py` (lines 39-54). -/
def async_transcode_from_path (source_path : String) (run : FfmpegRun) :
    Except PyError (List Nat) :=
  if run.returncode ≠ 0 then
    let error_msg := run.stderr
    .error (.serviceValidation
      s!"Failed to transcode audio file: {source_path}. Error: {error_msg}")
  else
    let wav_header_size := 44
    if run.stdout.length > wav_header_size then
      .ok (run.stdout.drop wav_header_size)
    else
      .error (.serviceValidation "Transcoding resulted in empty audio data.")

end Init

/-! ## Chunked byte streamer (`_async_stream_from_bytes`, `helpers.py` lines 38-42) -/

/-- `_async_stream_from_bytes` (`helpers.py` lines 38-42, identical copy in
`__init__.py` lines 73-77): reads successive `chunk_size`-byte slices from an
in-memory buffer until `buffer.read` returns an empty (falsy) chunk.  With
`chunk_size = 0` the first read is empty and nothing is emitted; the
cooperative `await asyncio.sleep(0)` has no observable data effect. -/
def _async_stream_from_bytes (data : List Nat) (chunk_size : Nat) :
    List (List Nat) :=
  if chunk_size = 0 then []
  else if data = [] then []
  else data.take chunk_size :: _async_stream_from_bytes (data.drop chunk_size) chunk_size
termination_by data.length
decreasing_by
  have hd : data ≠ [] := by assumption
  have : 0 < data.length := List.length_pos.mpr hd
  simp only [List.length_drop]
  omega

/-! ## STT result classification and language resolution
(`async_process_audio_data`, `helpers.py` lines 66-100; byte-identical logic
in `__init__.py` lines 221-255) -/

/-- `homeassistant.components.stt.SpeechResultState` (external): the backend
result state.  The source compares against `SpeechResultState.SUCCESS`. -/
inductive SpeechResultState where
  | success
  | error
deriving DecidableEq, Repr

/-- Python `str()` of the `SpeechResultState` string-enum member, as
interpolated into the recognition-failure message. -/
def SpeechResultState.str : SpeechResultState → String
  | .success => "success"
  | .error => "error"

/-- `homeassistant.components.stt.SpeechResult` (external): state plus text. -/
structure SpeechResult where
  result : SpeechResultState
  text : String
deriving DecidableEq, Repr

deriving instance DecidableEq for Except

/-- The observable behaviour of an STT entity: its declared
`supported_languages` and the outcome of
`internal_async_process_audio_stream` — either a `SpeechResult` or a raised
exception (rendered as a string). -/
structure SttProvider where
  supported_languages : List String
  processOutcome : Except String SpeechResult
deriving DecidableEq, Repr

/-- The dictionary `{"text": ...}` returned on success. -/
structure RecResponse where
  text : String
deriving DecidableEq, Repr

/-- Modelled from the spec: `homeassistant.util.language.matches` is external
to this repository; per the spec, matching "must tolerate regional-variant
equivalence, e.g. a base language code matching a region-qualified supported
entry".  A tag's primary subtag is what precedes the first `-`. -/
def primarySubtag (s : String) : String :=
  String.mk (s.toList.takeWhile (fun c => c ≠ '-'))

/-- Modelled from the spec: truthiness of `language_util.matches(target,
supported)` — some supported entry shares the target's primary subtag. -/
def languageMatches (target : String) (supported : List String) : Bool :=
  supported.any (fun s => primarySubtag s = primarySubtag target)

/-- The candidate of `target_language = language or hass.config.language`
(`helpers.py` line 73): the requested language when it is truthy (present and
non-empty), else the host default. -/
def candidateOf (language : Option String) (hassLang : String) : String :=
  match language with
  | some s => if s = "" then hassLang else s
  | none => hassLang

/-- The message of the unsupported-language `ServiceValidationError`
(`helpers.py` line 79). -/
def unsupportedLanguageMsg (target_language stt_entity_id : String) : String :=
  s!"Language \x27{target_language}\x27 is not supported by {stt_entity_id}."

/-- Lines 73-79 of `helpers.py` (resolution of the target language),
parametric in the external matcher: if the candidate matches no supported
entry, fall back to `supported[0]` exactly when the caller passed `None` and
the supported list is non-empty, else raise `ServiceValidationError`. -/
def resolve_language (matcher : String → List String → Bool)
    (language : Option String) (hassLang : String)
    (supported : List String) (stt_entity_id : String) :
    Except PyError String :=
  let target_language := candidateOf language hassLang
  if matcher target_language supported then .ok target_language
  else
    match language, supported with
    | none, s :: _ => .ok s
    | _, _ =>
        .error (.serviceValidation (unsupportedLanguageMsg target_language stt_entity_id))

/-- The body of the `try` block of `async_process_audio_data`
(`helpers.py` lines 87-96): drive the backend; a `SUCCESS` state returns
`{"text": result.text}`; any other state raises a `ServiceValidationError`
carrying the state; a backend exception propagates. -/
def recognitionTryBody (p : SttProvider) : Except PyError RecResponse :=
  match p.processOutcome with
  | .error e => .error (.otherExc e)
  | .ok result =>
      if result.result = SpeechResultState.success then .ok ⟨result.text⟩
      else
        let st := result.result.str
        .error (.serviceValidation s!"Recognition failed. Result state: {st}")

/-- The `except Exception` clause of `async_process_audio_data`
(`helpers.py` lines 98-100): every exception escaping the `try` block —
including the `ServiceValidationError` raised for a non-success state, which
is itself an `Exception` — is replaced by the generic message. -/
def catchAllWrap (r : Except PyError RecResponse) : Except PyError RecResponse :=
  match r with
  | .ok v => .ok v
  | .error _ =>
      .error (.serviceValidation "An unexpected error occurred during STT processing.")

/-- Trace of one `async_process_audio_data` call: whether the backend's
streaming call was reached, the `SpeechMetadata.language` it was given, and
the Python-level outcome. -/
structure ProcessTrace where
  backendInvoked : Bool
  backendLanguage : Option String
  result : Except PyError RecResponse
deriving DecidableEq, Repr

/-- The message of the entity-lookup `ServiceValidationError`
(`helpers.py` line 71). -/
def providerNotFoundMsg (stt_entity_id : String) : String :=
  s!"STT provider \x27{stt_entity_id}\x27 not found."

/-- `async_process_audio_data` (`helpers.py` lines 66-100), with the entity
lookup and backend behaviour supplied as parameters, instrumented with a
trace: provider absence raises before anything else; then the language is
resolved (lines 73-79); then the `try` block runs the backend and the
`except Exception` clause wraps every escaping error. -/
def async_process_audio_data_traced (provider : Option SttProvider)
    (hassLang : String) (stt_entity_id : String) (language : Option String) :
    ProcessTrace :=
  match provider with
  | none =>
      ⟨false, none, .error (.serviceValidation (providerNotFoundMsg stt_entity_id))⟩
  | some p =>
      match resolve_language languageMatches language hassLang
          p.supported_languages stt_entity_id with
      | .error e => ⟨false, none, .error e⟩
      | .ok target_language =>
          ⟨true, some target_language, catchAllWrap (recognitionTryBody p)⟩

/-- The `Except`-valued view of `async_process_audio_data`. -/
def async_process_audio_data (provider : Option SttProvider)
    (hassLang : String) (stt_entity_id : String) (language : Option String) :
    Except PyError RecResponse :=
  (async_process_audio_data_traced provider hassLang stt_entity_id language).result

/-! ## File-service adapter (`handle_recognize_file_service`,
`__init__.py` lines 85-95) -/

/-- Python truthiness of `call.data.get(...)` for a string field: `None` and
the empty string are falsy. -/
def pyTruthy : Option String → Bool
  | none => false
  | some s => s ≠ ""

/-- Trace of one `recognize_file` service call: whether the ffmpeg transcoder
ran, plus the inner recognition trace fields and the outcome. -/
structure ServiceTrace where
  transcoderInvoked : Bool
  backendInvoked : Bool
  backendLanguage : Option String
  result : Except PyError RecResponse
deriving DecidableEq, Repr

/-- `handle_recognize_file_service` (`__init__.py` lines 85-95): validate
`file_path` and `entity_id`, then transcode from the path (step 1, via the
local `async_transcode_from_path` of `__init__.py`), then recognise (step 2,
`async_process_audio_data`).  The transcode happens before the entity
lookup. -/
def handle_recognize_file_service (file_path stt_entity_id language : Option String)
    (ffmpeg : FfmpegRun) (provider : Option SttProvider) (hassLang : String) :
    ServiceTrace :=
  if ¬ pyTruthy file_path then
    ⟨false, false, none, .error (.serviceValidation "\x27file_path\x27 is required.")⟩
  else if ¬ pyTruthy stt_entity_id then
    ⟨false, false, none, .error (.serviceValidation "\x27entity_id\x27 is required.")⟩
  else
    match Init.async_transcode_from_path (file_path.getD "") ffmpeg with
    | .error e => ⟨true, false, none, .error e⟩
    | .ok _ =>
        let t := async_process_audio_data_traced provider hassLang
          (stt_entity_id.getD "") language
        ⟨true, t.backendInvoked, t.backendLanguage, t.result⟩

/-! ## Chat-message adapter (`handle_audio_message`, `telegram.py`
lines 86-146) -/

/-- Python `str.split(',')` on the character list: comma-separated groups,
with `"".split(',') = [""]`. -/
def splitCharsOnComma : List Char → List (List Char)
  | [] => [[]]
  | c :: cs =>
      let rest := splitCharsOnComma cs
      if c = ',' then [] :: rest
      else
        match rest with
        | g :: gs => (c :: g) :: gs
        | [] => [[c]]

/-- Python `str.strip()`: drop leading and trailing whitespace. -/
def pyStrip (s : String) : String :=
  String.mk
    (((s.toList.dropWhile Char.isWhitespace).reverse.dropWhile Char.isWhitespace).reverse)

/-- `allowed_ids` (`telegram.py` lines 89-90): split the configured string on
commas, strip whitespace, drop the falsy (empty) pieces. -/
def parseAllowedIds (allowed_ids_str : String) : List String :=
  (((splitCharsOnComma allowed_ids_str.toList).map String.mk).map pyStrip).filter
    (fun s => s ≠ "")

/-- A Telegram media object as the handler observes it: its `duration`
attribute (`getattr(media, 'duration', 0)` yields 0 when absent, e.g. for
documents). -/
structure Media where
  duration : Int
deriving DecidableEq, Repr

/-- The config-entry options read by `handle_audio_message`
(`entry.options.get(...)`): `None` models an absent key. -/
structure ChatOptions where
  chatIds : String
  sttEntityId : Option String
  sendReply : Option Bool
  maxDuration : Option Int
deriving DecidableEq, Repr

/-- Trace of one chat-message handling: the replies sent (in order), the
platform events fired as `(text, chat_id, username)` payloads, and whether
the transcoder / STT backend were reached. -/
structure ChatTrace where
  replies : List String
  events : List (String × String × String)
  transcoderInvoked : Bool
  backendInvoked : Bool
deriving DecidableEq, Repr

/-- The silent termination trace: no reply, no event, nothing invoked. -/
def silentTrace : ChatTrace := ⟨[], [], false, false⟩

/-- The too-long rejection reply (`telegram.py` lines 115-118); the source
literal is a Russian-language message (mojibake in this checkout) carrying
the duration and the limit; only its identity and the interpolated values
matter to any claim, so it is rendered in English here. -/
def tooLongReply (duration max_duration : Int) : String :=
  s!"File is too long ({duration} sec). Maximum duration: {max_duration} sec."

/-- The success echo reply (`telegram.py` line 134), prefix plus text. -/
def successReply (text : String) : String := s!"speech: {text}"

/-- The could-not-recognise reply (`telegram.py` line 137). -/
def cannotRecognizeReply : String := "Could not recognize speech."

/-- The no-audio-track reply (`telegram.py` line 142). -/
def noAudioReply : String := "Could not process: the media file has no audio track."

/-- The generic error reply (`telegram.py` line 146), with `str(e)`. -/
def genericErrorReply (e : String) : String := s!"An error occurred: {e}"

/-- `TelegramBotManager.handle_audio_message` (`telegram.py` lines 86-146):
allow-list gate, STT-target gate, media presence, duration gate
(`options.get(CONF_TELEGRAM_MAX_DURATION, 180)`), transcode via
`helpers.async_transcode_from_bytes`, recognition via
`async_process_audio_data` with `language=None`, then reply/event dispatch;
`except NoAudioStreamError` and `except Exception` map errors to replies.
Downloading the media is external and modelled as always succeeding. -/
def handle_audio_message (opts : ChatOptions) (chat_id_str username : String)
    (media : Option Media) (ffmpeg : FfmpegRun)
    (provider : Option SttProvider) (hassLang : String) : ChatTrace :=
  let allowed_ids := parseAllowedIds opts.chatIds
  if allowed_ids ≠ [] ∧ chat_id_str ∉ allowed_ids then silentTrace
  else if ¬ pyTruthy opts.sttEntityId then silentTrace
  else
    let stt_entity_id := opts.sttEntityId.getD ""
    let should_send_reply := opts.sendReply.getD true
    match media with
    | none => silentTrace
    | some m =>
        let duration := m.duration
        let max_duration := opts.maxDuration.getD 180
        if max_duration > 0 ∧ duration > 0 ∧ duration > max_duration then
          ⟨if should_send_reply then [tooLongReply duration max_duration] else [],
           [], false, false⟩
        else
          match Helpers.async_transcode_from_bytes ffmpeg with
          | .error (.noAudioStream _) =>
              ⟨if should_send_reply then [noAudioReply] else [], [], true, false⟩
          | .error e =>
              ⟨if should_send_reply then [genericErrorReply e.msg] else [],
               [], true, false⟩
          | .ok _ =>
              let t := async_process_audio_data_traced provider hassLang
                stt_entity_id none
              match t.result with
              | .error (.noAudioStream _) =>
                  ⟨if should_send_reply then [noAudioReply] else [],
                   [], true, t.backendInvoked⟩
              | .error e =>
                  ⟨if should_send_reply then [genericErrorReply e.msg] else [],
                   [], true, t.backendInvoked⟩
              | .ok r =>
                  if r.text ≠ "" then
                    ⟨if should_send_reply then [successReply r.text] else [],
                     [(r.text, chat_id_str, username)], true, t.backendInvoked⟩
                  else
                    ⟨if should_send_reply then [cannotRecognizeReply] else [],
                     [], true, t.backendInvoked⟩

/-! ## Helper lemmas for the chunked streamer -/

theorem stream_nil (chunk_size : Nat) :
    _async_stream_from_bytes [] chunk_size = [] := by
  rw [_async_stream_from_bytes]
  simp

theorem stream_cons (data : List Nat) (chunk_size : Nat)
    (hC : chunk_size ≠ 0) (hd : data ≠ []) :
    _async_stream_from_bytes data chunk_size
      = data.take chunk_size
        :: _async_stream_from_bytes (data.drop chunk_size) chunk_size := by
  rw [_async_stream_from_bytes]
  simp [hC, hd]

theorem stream_ne_nil (data : List Nat) (chunk_size : Nat)
    (hC : chunk_size ≠ 0) (hd : data ≠ []) :
    _async_stream_from_bytes data chunk_size ≠ [] := by
  rw [stream_cons data chunk_size hC hd]
  simp

theorem stream_flatten (data : List Nat) (chunk_size : Nat) (hC : 0 < chunk_size) :
    (_async_stream_from_bytes data chunk_size).flatten = data := by
  induction data, chunk_size using _async_stream_from_bytes.induct with
  | case1 data => omega
  | case2 c hc => rw [stream_nil]; rfl
  | case3 data c hc hd ih =>
      rw [stream_cons data c hc hd]
      simp only [List.flatten_cons]
      rw [ih hC]
      exact List.take_append_drop c data

theorem stream_length (data : List Nat) (chunk_size : Nat) (hC : 0 < chunk_size) :
    (_async_stream_from_bytes data chunk_size).length
      = (data.length + chunk_size - 1) / chunk_size := by
  induction data, chunk_size using _async_stream_from_bytes.induct with
  | case1 data => omega
  | case2 c hc =>
      rw [stream_nil]
      simp only [List.length_nil]
      rw [Nat.div_eq_of_lt (by omega)]
  | case3 data c hc hd ih =>
      rw [stream_cons data c hc hd]
      simp only [List.length_cons]
      rw [ih hC, List.length_drop]
      have hL : 0 < data.length := List.length_pos.mpr hd
      have h1 : data.length + c - 1 = (data.length - 1) + c := by omega
      rw [h1, Nat.add_div_right _ hC]
      have h2 : (data.length - c + c - 1) / c = (data.length - 1) / c := by
        rcases Nat.lt_or_ge data.length c with hlt | hge
        · have h3 : data.length - c = 0 := by omega
          have ha : (0 + c - 1) / c = 0 := Nat.div_eq_of_lt (by omega)
          have hb : (data.length - 1) / c = 0 := Nat.div_eq_of_lt (by omega)
          rw [h3, ha, hb]
        · have h3 : data.length - c + c - 1 = data.length - 1 := by omega
          rw [h3]
      rw [h2]

theorem stream_dropLast (data : List Nat) (chunk_size : Nat) (hC : 0 < chunk_size) :
    ∀ c ∈ (_async_stream_from_bytes data chunk_size).dropLast,
      c.length = chunk_size := by
  induction data, chunk_size using _async_stream_from_bytes.induct with
  | case1 data => omega
  | case2 c hc => rw [stream_nil]; intro x hx; simp at hx
  | case3 data c hc hd ih =>
      rw [stream_cons data c hc hd]
      by_cases h2 : data.drop c = []
      · rw [h2, stream_nil]
        intro x hx; simp at hx
      · have hrest : _async_stream_from_bytes (data.drop c) c ≠ [] :=
          stream_ne_nil _ _ hc h2
        rw [List.dropLast_cons_of_ne_nil hrest]
        intro x hx
        rcases List.mem_cons.mp hx with hx | hx
        · subst hx
          have hcL : c ≤ data.length := by
            have := List.length_drop c data
            have h3 : (data.drop c).length ≠ 0 := by
              simpa using fun h => h2 (List.length_eq_zero.mp h)
            omega
          simp [List.length_take, Nat.min_eq_left hcL]
        · exact ih hC x hx

theorem stream_last (data : List Nat) (chunk_size : Nat) (hC : 0 < chunk_size)
    (hd : data ≠ []) :
    (((_async_stream_from_bytes data chunk_size).getLast?).getD []).length
      = if data.length % chunk_size = 0 then chunk_size
        else data.length % chunk_size := by
  induction data, chunk_size using _async_stream_from_bytes.induct with
  | case1 data => omega
  | case2 c hc => exact absurd rfl hd
  | case3 data c hc hd2 ih =>
      rw [stream_cons data c hc hd2]
      have hL : 0 < data.length := List.length_pos.mpr hd2
      by_cases h2 : data.drop c = []
      · have hLc : data.length ≤ c := by
          have := List.length_drop c data
          have h3 : (data.drop c).length = 0 := by rw [h2]; rfl
          omega
        rw [h2, stream_nil]
        simp only [List.getLast?_singleton, Option.getD_some]
        rw [List.length_take, Nat.min_eq_right hLc]
        rcases Nat.lt_or_ge data.length c with hlt | hge
        · rw [if_neg (by rw [Nat.mod_eq_of_lt hlt]; omega), Nat.mod_eq_of_lt hlt]
        · have heq : data.length = c := by omega
          rw [heq, if_pos (Nat.mod_self c)]
      · have hrest : _async_stream_from_bytes (data.drop c) c ≠ [] :=
          stream_ne_nil _ _ hc h2
        have hcL : c ≤ data.length := by
          have := List.length_drop c data
          have h3 : (data.drop c).length ≠ 0 := by
            simpa using fun h => h2 (List.length_eq_zero.mp h)
          omega
        obtain ⟨b, l, hbl⟩ := List.exists_cons_of_ne_nil hrest
        rw [hbl, List.getLast?_cons_cons, ← hbl]
        rw [ih hC h2, List.length_drop]
        rw [← Nat.mod_eq_sub_mod hcL]

/-! ## Claim theorems -/

/-- Claim C1: for every ffmpeg invocation that exits 0, both
`helpers.async_transcode_from_bytes` and `helpers.async_transcode_from_path`
return a payload of length stdout-length minus the 44-byte header when that
difference is positive — never an empty success — and raise
`NoAudioStreamError` when the difference is ≤ 0. -/
theorem C1_transcode_header_strip (run : FfmpegRun) (source_path : String)
    (h0 : run.returncode = 0) :
    (44 < run.stdout.length →
        Helpers.async_transcode_from_bytes run = .ok (run.stdout.drop 44)
        ∧ Helpers.async_transcode_from_path source_path run = .ok (run.stdout.drop 44)
        ∧ (run.stdout.drop 44).length = run.stdout.length - 44
        ∧ run.stdout.drop 44 ≠ [])
    ∧ (run.stdout.length ≤ 44 →
        Helpers.async_transcode_from_bytes run
          = .error (.noAudioStream "The source media does not contain an audio stream.")
        ∧ Helpers.async_transcode_from_path source_path run
          = .error (.noAudioStream "The source file does not contain an audio stream.")) := by
  constructor
  · intro hlen
    refine ⟨?_, ?_, ?_, ?_⟩
    · simp [Helpers.async_transcode_from_bytes, h0, hlen]
    · simp [Helpers.async_transcode_from_path, h0, hlen]
    · simp [List.length_drop]
    · have hpos : 0 < (run.stdout.drop 44).length := by
        simp [List.length_drop]; omega
      exact List.length_pos.mp hpos
  · intro hlen
    have hnot : ¬ (44 < run.stdout.length) := by omega
    constructor
    · simp [Helpers.async_transcode_from_bytes, h0, hnot]
    · simp [Helpers.async_transcode_from_path, h0, hnot]

/-- Witness for C1 at a 50-byte stdout with exit code 0. -/
theorem C1_witness :
    Helpers.async_transcode_from_bytes ⟨0, List.replicate 50 7, ""⟩
      = .ok ((List.replicate 50 7 : List Nat).drop 44)
    ∧ Helpers.async_transcode_from_path "/media/a.mp4" ⟨0, List.replicate 50 7, ""⟩
      = .ok ((List.replicate 50 7 : List Nat).drop 44)
    ∧ ((List.replicate 50 7 : List Nat).drop 44).length = 50 - 44
    ∧ (List.replicate 50 7 : List Nat).drop 44 ≠ [] := by
  have h := C1_transcode_header_strip ⟨0, List.replicate 50 7, ""⟩ "/media/a.mp4" rfl
  exact h.1 (by decide)

/-- Claim C2: the resolver's asymmetry, parametric in the external language
matcher — when the candidate matches no supported entry, the silent fallback
to `supported[0]` happens exactly when the request was absent (`None`) and
the supported list is non-empty; every other non-matching case (explicit
request, or empty supported list) raises the unsupported-language error. -/
theorem C2_resolver_asymmetry (matcher : String → List String → Bool)
    (language : Option String) (hassLang : String) (supported : List String)
    (stt_entity_id : String)
    (hnm : matcher (candidateOf language hassLang) supported = false) :
    (language = none ∧ supported ≠ [] →
        resolve_language matcher language hassLang supported stt_entity_id
          = .ok (supported.headD ""))
    ∧ (¬ (language = none ∧ supported ≠ []) →
        resolve_language matcher language hassLang supported stt_entity_id
          = .error (.serviceValidation
              (unsupportedLanguageMsg (candidateOf language hassLang) stt_entity_id))) := by
  constructor
  · rintro ⟨rfl, hs⟩
    cases supported with
    | nil => exact absurd rfl hs
    | cons s rest => simp [resolve_language, hnm]
  · intro h
    cases language with
    | none =>
        cases supported with
        | nil => simp [resolve_language, hnm]
        | cons s rest => exact absurd ⟨rfl, by simp⟩ h
    | some l => simp [resolve_language, hnm]

/-- Witness for C2 with the concrete matcher: implicit default falls back to
`supported[0]`; an explicit unsupported request errors. -/
theorem C2_witness :
    resolve_language languageMatches none "de" ["en-US"] "stt.x" = .ok "en-US"
    ∧ resolve_language languageMatches (some "de") "en" ["en-US"] "stt.x"
        = .error (.serviceValidation (unsupportedLanguageMsg "de" "stt.x")) := by
  have h1 := C2_resolver_asymmetry languageMatches none "de" ["en-US"] "stt.x" (by decide)
  have h2 := C2_resolver_asymmetry languageMatches (some "de") "en" ["en-US"] "stt.x"
    (by decide)
  exact ⟨h1.1 ⟨rfl, by simp⟩, h2.2 (by simp)⟩

/-- Claim C3 counterexample: `resolve(None, "en", ["en-US","fr"])` succeeds,
but the resolver returns the candidate `"en"`, not the region-qualified
supported entry `"en-US"` as the claim states. -/
theorem C3_counterexample :
    resolve_language languageMatches none "en" ["en-US", "fr"] "stt.x" = .ok "en"
    ∧ resolve_language languageMatches none "en" ["en-US", "fr"] "stt.x"
        ≠ .ok "en-US" :=
  ⟨rfl, by decide⟩

/-- Claim C3 as amended: with no requested language, host default `"en"` and
supported `["en-US","fr"]`, resolution succeeds via the regional-variant
match and the effective language given to the backend metadata is the
candidate `"en"` itself — not an error, and not `"en-US"`. -/
theorem C3_amended_effective_language :
    (async_process_audio_data_traced (some ⟨["en-US", "fr"], .ok ⟨.success, "hello"⟩⟩)
        "en" "stt.x" none).backendInvoked = true
    ∧ (async_process_audio_data_traced (some ⟨["en-US", "fr"], .ok ⟨.success, "hello"⟩⟩)
        "en" "stt.x" none).backendLanguage = some "en"
    ∧ (async_process_audio_data_traced (some ⟨["en-US", "fr"], .ok ⟨.success, "hello"⟩⟩)
        "en" "stt.x" none).result = .ok ⟨"hello"⟩ :=
  ⟨rfl, rfl, rfl⟩

/-- Claim C4 counterexample: a `recognize_file` call whose entity has no STT
capability (lookup yields nothing) does fail with the entity-not-found
error, but the ffmpeg transcoder IS invoked first — `handle_recognize_file_service`
transcodes (step 1) before `async_process_audio_data` performs the lookup
(step 2), so "the Transcoder is never invoked" is false. -/
theorem C4_counterexample :
    (handle_recognize_file_service (some "/media/a.ogg") (some "stt.x") none
        ⟨0, List.replicate 100 0, ""⟩ none "en").transcoderInvoked = true
    ∧ (handle_recognize_file_service (some "/media/a.ogg") (some "stt.x") none
        ⟨0, List.replicate 100 0, ""⟩ none "en").result
        = .error (.serviceValidation (providerNotFoundMsg "stt.x")) :=
  ⟨rfl, rfl⟩

/-- Claim C4 as amended: for every request with present (truthy) arguments
whose entity has no registered STT capability and whose transcode succeeds,
the call fails with the entity-not-found error and the STT backend is never
invoked; the transcoder, however, is invoked (before the lookup). -/
theorem C4_amended (file_path stt_entity_id : String) (language : Option String)
    (run : FfmpegRun) (hassLang : String)
    (hf : file_path ≠ "") (he : stt_entity_id ≠ "")
    (h0 : run.returncode = 0) (hlen : 44 < run.stdout.length) :
    (handle_recognize_file_service (some file_path) (some stt_entity_id) language
        run none hassLang).transcoderInvoked = true
    ∧ (handle_recognize_file_service (some file_path) (some stt_entity_id) language
        run none hassLang).backendInvoked = false
    ∧ (handle_recognize_file_service (some file_path) (some stt_entity_id) language
        run none hassLang).result
        = .error (.serviceValidation (providerNotFoundMsg stt_entity_id)) := by
  have htr : Init.async_transcode_from_path file_path run = .ok (run.stdout.drop 44) := by
    simp [Init.async_transcode_from_path, h0, hlen]
  refine ⟨?_, ?_, ?_⟩ <;>
    simp [handle_recognize_file_service, pyTruthy, hf, he, htr,
      async_process_audio_data_traced]

/-- Witness for C4's amended theorem at a concrete unknown entity. -/
theorem C4_witness :
    (handle_recognize_file_service (some "/media/a.ogg") (some "stt.unknown") none
        ⟨0, List.replicate 60 2, ""⟩ none "en").transcoderInvoked = true
    ∧ (handle_recognize_file_service (some "/media/a.ogg") (some "stt.unknown") none
        ⟨0, List.replicate 60 2, ""⟩ none "en").backendInvoked = false
    ∧ (handle_recognize_file_service (some "/media/a.ogg") (some "stt.unknown") none
        ⟨0, List.replicate 60 2, ""⟩ none "en").result
        = .error (.serviceValidation (providerNotFoundMsg "stt.unknown")) :=
  C4_amended "/media/a.ogg" "stt.unknown" none ⟨0, List.replicate 60 2, ""⟩ "en"
    (by decide) (by decide) rfl (by decide)

/-- Claim C5, evaluated at the failing input: on a non-success backend state
the `try` block does raise the distinct `Recognition failed` message carrying
the state, but that `ServiceValidationError` is itself caught by the
function's own `except Exception` clause, so the caller receives the generic
internal-error message instead — the distinct-text-per-kind property the
claim states is violated by the code. -/
theorem C5_swallowed_recognition_failure :
    recognitionTryBody ⟨["en"], .ok ⟨.error, ""⟩⟩
      = .error (.serviceValidation "Recognition failed. Result state: error")
    ∧ (async_process_audio_data_traced (some ⟨["en"], .ok ⟨.error, ""⟩⟩)
        "en" "stt.x" (some "en")).result
      = .error (.serviceValidation "An unexpected error occurred during STT processing.")
    ∧ "Recognition failed. Result state: error"
      ≠ "An unexpected error occurred during STT processing." :=
  ⟨rfl, rfl, by decide⟩

/-- Claim C6 counterexample: the two `async_transcode_from_bytes` embeddings
are not extensionally equal — their ffmpeg argument lists differ (only
`helpers.py` passes `-vn`) and on a header-sized output `helpers.py` raises
`NoAudioStreamError` while `__init__.py` raises `ServiceValidationError`. -/
theorem C6_counterexample :
    Helpers.bytes_command ≠ Init.bytes_command
    ∧ Helpers.async_transcode_from_bytes ⟨0, List.replicate 10 0, ""⟩
        = .error (.noAudioStream "The source media does not contain an audio stream.")
    ∧ Init.async_transcode_from_bytes ⟨0, List.replicate 10 0, ""⟩
        = .error (.serviceValidation "Transcoding resulted in empty audio data.") :=
  ⟨by decide, rfl, rfl⟩

/-- Claim C6 as amended: the two transcode embeddings agree on every
successful invocation (same 44-byte strip, same payload), but they differ in
the error kind raised when the output does not exceed the header size
(`NoAudioStreamError` in `helpers.py` versus `ServiceValidationError` in
`__init__.py`) and their argument lists differ exactly by the `-vn` flag. -/
theorem C6_amended (run : FfmpegRun) (h0 : run.returncode = 0) :
    (44 < run.stdout.length →
        Helpers.async_transcode_from_bytes run = Init.async_transcode_from_bytes run)
    ∧ (run.stdout.length ≤ 44 →
        Helpers.async_transcode_from_bytes run
          = .error (.noAudioStream "The source media does not contain an audio stream.")
        ∧ Init.async_transcode_from_bytes run
          = .error (.serviceValidation "Transcoding resulted in empty audio data."))
    ∧ Helpers.bytes_command
        = Init.bytes_command.take 3 ++ "-vn" :: Init.bytes_command.drop 3 := by
  refine ⟨?_, ?_, by decide⟩
  · intro hlen
    simp [Helpers.async_transcode_from_bytes, Init.async_transcode_from_bytes, h0, hlen]
  · intro hlen
    have hnot : ¬ (44 < run.stdout.length) := by omega
    exact ⟨by simp [Helpers.async_transcode_from_bytes, h0, hnot],
           by simp [Init.async_transcode_from_bytes, h0, hnot]⟩

/-- Witness for C6's amended theorem at a 60-byte stdout. -/
theorem C6_witness :
    Helpers.async_transcode_from_bytes ⟨0, List.replicate 60 1, ""⟩
      = Init.async_transcode_from_bytes ⟨0, List.replicate 60 1, ""⟩
    ∧ Helpers.bytes_command
        = Init.bytes_command.take 3 ++ "-vn" :: Init.bytes_command.drop 3 := by
  have h := C6_amended ⟨0, List.replicate 60 1, ""⟩ rfl
  exact ⟨h.1 (by decide), h.2.2⟩

/-- Claim C7: the chunked streamer on a buffer of length L with chunk size
C > 0 emits ceil(L/C) chunks whose in-order concatenation is the original
buffer, every chunk but possibly the last has length C, the last chunk has
length L mod C (or C when L is a positive multiple of C), and an empty
buffer yields no chunks. -/
theorem C7_chunked_streamer (data : List Nat) (chunk_size : Nat)
    (hC : 0 < chunk_size) :
    (_async_stream_from_bytes data chunk_size).length
        = (data.length + chunk_size - 1) / chunk_size
    ∧ (_async_stream_from_bytes data chunk_size).flatten = data
    ∧ (∀ c ∈ (_async_stream_from_bytes data chunk_size).dropLast,
        c.length = chunk_size)
    ∧ (data ≠ [] →
        (((_async_stream_from_bytes data chunk_size).getLast?).getD []).length
          = if data.length % chunk_size = 0 then chunk_size
            else data.length % chunk_size)
    ∧ (data = [] → _async_stream_from_bytes data chunk_size = []) := by
  refine ⟨stream_length data chunk_size hC, stream_flatten data chunk_size hC,
    stream_dropLast data chunk_size hC,
    fun hd => stream_last data chunk_size hC hd, fun hd => ?_⟩
  subst hd
  exact stream_nil chunk_size

/-- Witness for C7 on a 5-byte buffer with chunk size 2. -/
theorem C7_witness :
    (_async_stream_from_bytes [1, 2, 3, 4, 5] 2).length = 3
    ∧ (_async_stream_from_bytes [1, 2, 3, 4, 5] 2).flatten = [1, 2, 3, 4, 5]
    ∧ (_async_stream_from_bytes [1, 2, 3, 4, 5] 2).dropLast = [[1, 2], [3, 4]]
    ∧ (((_async_stream_from_bytes [1, 2, 3, 4, 5] 2).getLast?).getD []).length = 1 := by
  have h := C7_chunked_streamer [1, 2, 3, 4, 5] 2 (by decide)
  have hs : _async_stream_from_bytes [1, 2, 3, 4, 5] 2 = [[1, 2], [3, 4], [5]] := by
    simp [_async_stream_from_bytes]
  exact ⟨by simpa using h.1, h.2.1, by rw [hs]; rfl,
    by simpa using h.2.2.2.1 (by decide)⟩

/-- Claim C8: a chat message whose chat id is not in the non-empty parsed
allow-list produces zero replies and zero fired events, for every message
content, send-reply setting, transcode behaviour and backend behaviour. -/
theorem C8_unauthorized_silent (opts : ChatOptions) (chat_id_str username : String)
    (media : Option Media) (ffmpeg : FfmpegRun) (provider : Option SttProvider)
    (hassLang : String)
    (hne : parseAllowedIds opts.chatIds ≠ [])
    (hmem : chat_id_str ∉ parseAllowedIds opts.chatIds) :
    (handle_audio_message opts chat_id_str username media ffmpeg provider
        hassLang).replies = []
    ∧ (handle_audio_message opts chat_id_str username media ffmpeg provider
        hassLang).events = [] := by
  have h : handle_audio_message opts chat_id_str username media ffmpeg provider
      hassLang = silentTrace := by
    unfold handle_audio_message
    simp [hne, hmem]
  rw [h]
  exact ⟨rfl, rfl⟩

/-- Witness for C8: chat id 789 against allow-list "123, 456". -/
theorem C8_witness :
    (handle_audio_message ⟨"123, 456", some "stt.x", some true, none⟩ "789" "u"
        (some ⟨10⟩) ⟨0, List.replicate 100 0, ""⟩ none "en").replies = []
    ∧ (handle_audio_message ⟨"123, 456", some "stt.x", some true, none⟩ "789" "u"
        (some ⟨10⟩) ⟨0, List.replicate 100 0, ""⟩ none "en").events = [] :=
  C8_unauthorized_silent ⟨"123, 456", some "stt.x", some true, none⟩ "789" "u"
    (some ⟨10⟩) ⟨0, List.replicate 100 0, ""⟩ none "en" (by decide) (by decide)

/-- Claim C9 counterexample: with the max-duration option ABSENT the handler
is not unlimited — `options.get(CONF_TELEGRAM_MAX_DURATION, 180)` defaults to
180, so a 200-second message is rejected with a too-long reply and the
transcoder is never reached, refuting "0 or absent ⇒ unlimited". -/
theorem C9_counterexample :
    (handle_audio_message ⟨"", some "stt.x", some true, none⟩ "1" "u"
        (some ⟨200⟩) ⟨0, List.replicate 100 0, ""⟩ none "en").replies
      = [tooLongReply 200 180]
    ∧ (handle_audio_message ⟨"", some "stt.x", some true, none⟩ "1" "u"
        (some ⟨200⟩) ⟨0, List.replicate 100 0, ""⟩ none "en").transcoderInvoked
      = false :=
  ⟨rfl, rfl⟩

/-- Claim C9 as amended: for an authorized, STT-configured message with
media, a configured max-duration of 0 disables the length gate (the
transcoder is reached); an absent max-duration defaults to 180 rather than
unlimited; and with effective limit 180 and duration 200 the handler sends
exactly one reply when the send-reply toggle is on (none otherwise), fires
no event, and never invokes the transcoder. -/
theorem C9_amended (opts : ChatOptions) (chat_id_str username : String) (m : Media)
    (ffmpeg : FfmpegRun) (provider : Option SttProvider) (hassLang : String)
    (hauth : parseAllowedIds opts.chatIds = [])
    (hstt : pyTruthy opts.sttEntityId = true) :
    (opts.maxDuration = some 0 →
        (handle_audio_message opts chat_id_str username (some m) ffmpeg provider
            hassLang).transcoderInvoked = true)
    ∧ (opts.maxDuration.getD 180 = 180 → m.duration = 200 →
        (handle_audio_message opts chat_id_str username (some m) ffmpeg provider
            hassLang).transcoderInvoked = false
        ∧ (handle_audio_message opts chat_id_str username (some m) ffmpeg provider
            hassLang).replies
            = (if opts.sendReply.getD true then [tooLongReply 200 180] else [])
        ∧ (handle_audio_message opts chat_id_str username (some m) ffmpeg provider
            hassLang).events = []) := by
  constructor
  · intro hmax
    unfold handle_audio_message
    simp [hauth, hstt, hmax]
    split <;> try rfl
    all_goals (split <;> try rfl)
    all_goals (split <;> rfl)
  · intro hmax hdur
    unfold handle_audio_message
    simp [hauth, hstt, hmax, hdur]

/-- Witness for C9's amended theorem: one instance with max-duration 0 (the
gate is off and a 200-second message reaches the transcoder) and one with
max-duration absent (the same message is rejected with a single reply). -/
theorem C9_witness :
    (handle_audio_message ⟨"", some "stt.x", some true, some 0⟩ "1" "u"
        (some ⟨200⟩) ⟨0, List.replicate 100 0, ""⟩ none "en").transcoderInvoked = true
    ∧ (handle_audio_message ⟨"", some "stt.x", some true, none⟩ "1" "u"
        (some ⟨200⟩) ⟨0, List.replicate 100 0, ""⟩ none "en").transcoderInvoked = false
    ∧ (handle_audio_message ⟨"", some "stt.x", some true, none⟩ "1" "u"
        (some ⟨200⟩) ⟨0, List.replicate 100 0, ""⟩ none "en").replies
        = [tooLongReply 200 180]
    ∧ (handle_audio_message ⟨"", some "stt.x", some true, none⟩ "1" "u"
        (some ⟨200⟩) ⟨0, List.replicate 100 0, ""⟩ none "en").events = [] := by
  have h1 := C9_amended ⟨"", some "stt.x", some true, some 0⟩ "1" "u" ⟨200⟩
      ⟨0, List.replicate 100 0, ""⟩ none "en" (by decide) (by decide)
  have h2 := C9_amended ⟨"", some "stt.x", some true, none⟩ "1" "u" ⟨200⟩
      ⟨0, List.replicate 100 0, ""⟩ none "en" (by decide) (by decide)
  have h2c := h2.2 (by decide) (by decide)
  exact ⟨h1.1 rfl, h2c.1, by simpa using h2c.2.1, h2c.2.2⟩

/-- Claim C10: an empty-string requested language is treated as absent for
candidate selection (the candidate becomes the host default), but as an
explicit request at the fallback decision — when the default matches no
supported entry the resolver raises the unsupported-language error even with
a non-empty supported list; the silent fallback never applies to it. -/
theorem C10_empty_string_language (matcher : String → List String → Bool)
    (hassLang : String) (supported : List String) (stt_entity_id : String)
    (hne : supported ≠ [])
    (hnm : matcher hassLang supported = false) :
    candidateOf (some "") hassLang = hassLang
    ∧ resolve_language matcher (some "") hassLang supported stt_entity_id
        = .error (.serviceValidation (unsupportedLanguageMsg hassLang stt_entity_id)) := by
  refine ⟨rfl, ?_⟩
  have hc : candidateOf (some "") hassLang = hassLang := rfl
  simp [resolve_language, hc, hnm]

/-- Witness for C10: requested `""`, host default `"de"`, supported
`["en-US"]`. -/
theorem C10_witness :
    candidateOf (some "") "de" = "de"
    ∧ resolve_language languageMatches (some "") "de" ["en-US"] "stt.x"
        = .error (.serviceValidation (unsupportedLanguageMsg "de" "stt.x")) :=
  C10_empty_string_language languageMatches "de" ["en-US"] "stt.x" (by decide) (by decide)
